import Mathlib

/-!
Verification of the EvalHub SDK HTTP-client core (`src/evalhub/client/base.py`):
the retry delay calculator, the retry loop of `_request`, URL construction,
and the credential / TLS resolution chain. Python floats are modelled as
rationals; the jitter draw of `random.random()` is passed explicitly as a
rational `u` with `0 ≤ u < 1`; the filesystem is modelled as a function from
paths to optional file contents.
-/

/-- Embeds `_calculate_retry_delay` (base.py lines 17-43).
`delay = min(initial_delay * backoff_factor ** attempt, max_delay)`;
when `randomization` is set the code returns `delay * (0.5 + random.random() * 0.5)`,
with the draw of `random.random()` passed here explicitly as `u`. -/
def calculate_retry_delay (attempt : Nat) (initial_delay max_delay backoff_factor : ℚ)
    (randomization : Bool) (u : ℚ) : ℚ :=
  let delay := min (initial_delay * backoff_factor ^ attempt) max_delay
  if randomization then delay * (1/2 + u * (1/2)) else delay

/-- Embeds the Python truthiness test on an optional string
(`if explicit_token:` / `if token_path:`): `None` and `""` are falsy. -/
def truthyStr : Option String → Bool
  | none => false
  | some s => s != ""

/-- Embeds `base_url.rstrip("/")` from the client constructors
(base.py lines 171 and 446): trailing `/` characters are removed. -/
def rstrip_slash (s : String) : String :=
  String.mk ((s.data.reverse.dropWhile (fun c => c = '/')).reverse)

/-- Embeds `self.api_base = f"{self.base_url}/api/v1"` (base.py lines 172 and 447). -/
def api_base (base_url : String) : String :=
  rstrip_slash base_url ++ "/api/v1"

/-- Embeds `url = f"{self.api_base}{path}"` from `_request`
(base.py lines 250 and 525). -/
def request_url (base_url path : String) : String :=
  api_base base_url ++ path

/-- Embeds the URL used by `health()` (base.py lines 395-405 and 670-680):
both the sync and the async variant call `self._request_get("/health")`,
which routes through `_request` and hence through `request_url`. -/
def health_url (base_url : String) : String :=
  request_url base_url "/health"

/-- Retry-policy fields stored on the client by both constructors
(base.py lines 173-177 and 448-452). -/
structure RetryPolicy where
  max_retries : Nat
  initial_delay : ℚ
  max_delay : ℚ
  backoff_factor : ℚ
  randomization : Bool

/-- Outcome of one transport call inside `_request`: a successful response
(after `raise_for_status` passes), an `httpx.HTTPStatusError` carrying a
status code, an `httpx.TimeoutException`, or an `httpx.RequestError`
(low-level connection error). Responses are abstracted to an identifier. -/
inductive Outcome
  | success (resp : Nat)
  | httpStatus (code : Nat)
  | timeout
  | connectError
deriving DecidableEq

/-- Exceptions that `_request` can propagate to its caller. `runtimeErr`
models the trailing `raise RuntimeError` after the loop (base.py line 608),
which is unreachable from `run_request`. -/
inductive ReqError
  | timeoutErr
  | statusErr (code : Nat)
  | connectErr
  | runtimeErr
deriving DecidableEq

/-- Decision the body of the retry loop takes on one attempt: return the
response, re-raise an exception, or sleep the computed delay and retry. -/
inductive StepDecision
  | ret (resp : Nat)
  | raiseErr (e : ReqError)
  | retryAfter (delay : ℚ)
deriving DecidableEq

/-- Embeds one iteration of the retry loop of `_request`. The sync body
(base.py lines 528-603) and the async body (lines 253-328) are textually
identical apart from `time.sleep` versus `await asyncio.sleep`; this is the
shared embedding of both. `u` is the jitter draw used if a delay is computed.
Branches, in source order: success returns; timeout re-raises on the last
attempt, else retries; a status error re-raises at once for 401, for 403,
and for any code < 500 or when the attempt budget is spent, else retries;
a connection error re-raises on the last attempt, else retries. -/
def attempt_step (pol : RetryPolicy) (u : ℚ) (attempt : Nat) : Outcome → StepDecision
  | .success resp => .ret resp
  | .timeout =>
      if attempt = pol.max_retries then .raiseErr .timeoutErr
      else .retryAfter (calculate_retry_delay attempt pol.initial_delay pol.max_delay
        pol.backoff_factor pol.randomization u)
  | .httpStatus code =>
      if code = 401 then .raiseErr (.statusErr code)
      else if code = 403 then .raiseErr (.statusErr code)
      else if code < 500 ∨ attempt = pol.max_retries then .raiseErr (.statusErr code)
      else .retryAfter (calculate_retry_delay attempt pol.initial_delay pol.max_delay
        pol.backoff_factor pol.randomization u)
  | .connectError =>
      if attempt = pol.max_retries then .raiseErr .connectErr
      else .retryAfter (calculate_retry_delay attempt pol.initial_delay pol.max_delay
        pol.backoff_factor pol.randomization u)

/-- Embeds `for attempt in range(self.max_retries + 1)` of `_request` as
fuel-indexed recursion. `transport` gives the outcome of the call made on
each attempt index, `us` the jitter draw per attempt. Returns the result
together with the number of transport calls made. Exhausted fuel is the
unreachable code after the loop (base.py lines 605-608). -/
def run_from (pol : RetryPolicy) (us : Nat → ℚ) (transport : Nat → Outcome) :
    Nat → Nat → Except ReqError Nat × Nat
  | 0, _ => (.error .runtimeErr, 0)
  | fuel + 1, attempt =>
      match attempt_step pol (us attempt) attempt (transport attempt) with
      | .ret resp => (.ok resp, 1)
      | .raiseErr e => (.error e, 1)
      | .retryAfter _ =>
          let r := run_from pol us transport fuel (attempt + 1)
          (r.1, r.2 + 1)

/-- One logical `_request` call: the loop runs over attempt indices
`0, …, max_retries`. -/
def run_request (pol : RetryPolicy) (us : Nat → ℚ) (transport : Nat → Outcome) :
    Except ReqError Nat × Nat :=
  run_from pol us transport (pol.max_retries + 1) 0

/-- An attempt outcome the engine classifies as retryable: a timeout, a
connection error, or an HTTP status error with code ≥ 500. -/
def retryable (o : Outcome) : Prop :=
  o = .timeout ∨ o = .connectError ∨ ∃ c, 500 ≤ c ∧ o = .httpStatus c

/-- The exception `_request` re-raises for a failing outcome (the `success`
case is never raised; it is mapped to the unreachable `runtimeErr`). -/
def err_of : Outcome → ReqError
  | .success _ => .runtimeErr
  | .timeout => .timeoutErr
  | .httpStatus c => .statusErr c
  | .connectError => .connectErr

/-- Embeds the delay computation as written in `BaseSyncClient._request`
(base.py lines 541-547, 572-578, 592-598): every call site passes
`(attempt, self.retry_initial_delay, self.retry_max_delay,
self.retry_backoff_factor, self.retry_randomization)`. -/
def sync_request_delay (pol : RetryPolicy) (u : ℚ) (attempt : Nat) : ℚ :=
  calculate_retry_delay attempt pol.initial_delay pol.max_delay
    pol.backoff_factor pol.randomization u

/-- Embeds the delay computation as written in `BaseAsyncClient._request`
(base.py lines 266-272, 297-303, 317-323): the argument list is identical
to the synchronous variant. -/
def async_request_delay (pol : RetryPolicy) (u : ℚ) (attempt : Nat) : ℚ :=
  calculate_retry_delay attempt pol.initial_delay pol.max_delay
    pol.backoff_factor pol.randomization u

/-- Fixed path of the auto-detected Kubernetes ServiceAccount token
(base.py line 77). -/
def service_account_token_path : String :=
  "/var/run/secrets/kubernetes.io/serviceaccount/token"

/-- Embeds `_resolve_auth_token` (base.py lines 46-84) over a filesystem
`fs : path → Option contents` (`fs p = some c` iff the file exists). The
explicit token is returned when truthy; else a truthy `token_path` whose
file exists yields the stripped contents (a missing file only logs a
warning and falls through); else the well-known ServiceAccount token file
is read and stripped if present; else `none`. Total, hence never raises. -/
def resolve_auth_token (fs : String → Option String) (explicit_token token_path : Option String) :
    Option String :=
  if truthyStr explicit_token then explicit_token
  else
    match (if truthyStr token_path then fs (token_path.getD "") else none) with
    | some content => some content.trim
    | none =>
        match fs service_account_token_path with
        | some content => some content.trim
        | none => none

/-- Well-known CA bundle locations probed in order (base.py lines 110-113). -/
def ca_paths : List String :=
  ["/etc/pki/ca-trust/source/anchors/service-ca.crt",
   "/var/run/secrets/kubernetes.io/serviceaccount/ca.crt"]

/-- Embeds `_resolve_ca_bundle` (base.py lines 87-122) over an existence
predicate `ex` on paths: a truthy explicit path that exists is returned
(a missing one only logs a warning); otherwise the first existing
well-known location; otherwise `none`. -/
def resolve_ca_bundle (ex : String → Bool) (ca_bundle_path : Option String) : Option String :=
  if truthyStr ca_bundle_path && ex (ca_bundle_path.getD "") then ca_bundle_path
  else ca_paths.find? ex

/-- The `verify` argument handed to the `httpx` transport: a boolean flag or
a CA bundle path (base.py lines 199-209 and 474-484). -/
inductive VerifySpec
  | flag (b : Bool)
  | bundle (p : String)
deriving DecidableEq

/-- TLS-relevant state a client constructor produces: the stored
`self._ca_bundle`, the transport `verify` setting, and whether the
`_resolve_ca_bundle` branch was taken at all. -/
structure TlsInit where
  ca_bundle : Option String
  verify : VerifySpec
  ca_resolution_consulted : Bool
deriving DecidableEq

/-- Embeds the TLS part of `BaseAsyncClient.__init__` (base.py lines
179-209) and the identical `BaseSyncClient.__init__` (lines 454-484):
`if not verify_ssl: insecure = True`; when insecure, `self._ca_bundle`
is forced to `None` without consulting `_resolve_ca_bundle` and
`verify = False`; otherwise the resolved bundle (if any) is passed as the
verify path, else `verify = True`. -/
def client_tls_init (ex : String → Bool) (ca_bundle_path : Option String)
    (insecure verify_ssl : Bool) : TlsInit :=
  let insecure2 := if !verify_ssl then true else insecure
  let ca_bundle := if insecure2 then none else resolve_ca_bundle ex ca_bundle_path
  let consulted := if insecure2 then false else true
  let v : VerifySpec :=
    if insecure2 then .flag false
    else match ca_bundle with
      | some p => .bundle p
      | none => .flag true
  ⟨ca_bundle, v, consulted⟩

/-- The exponential-backoff base is positive for a positive initial delay,
a backoff factor at least one, and a max delay at least the initial delay. -/
theorem retry_base_pos (attempt : Nat) (d M f : ℚ) (hd : 0 < d) (hM : d ≤ M) (hf : 1 ≤ f) :
    0 < min (d * f ^ attempt) M := by
  refine lt_min ?_ (lt_of_lt_of_le hd hM)
  exact mul_pos hd (pow_pos (lt_of_lt_of_le one_pos hf) attempt)

/-- C4: with randomize false the calculator returns exactly
`base = min(initial_delay * backoff_factor ** attempt, max_delay)`; with
randomize true it returns `base * (0.5 + U)` for `U = u * 0.5` in `[0, 0.5)`
(where `u` is the draw of `random.random()` in `[0, 1)`), so the returned
delay lies between `0.5 * base` and `base`. -/
theorem C4_delay_formula (attempt : Nat) (d M f u : ℚ)
    (hd : 0 < d) (hM : d ≤ M) (hf : 1 ≤ f) (hu0 : 0 ≤ u) (hu1 : u < 1) :
    calculate_retry_delay attempt d M f false u = min (d * f ^ attempt) M ∧
    (∃ U : ℚ, 0 ≤ U ∧ U < 1/2 ∧
      calculate_retry_delay attempt d M f true u = min (d * f ^ attempt) M * (1/2 + U)) ∧
    (1/2) * min (d * f ^ attempt) M ≤ calculate_retry_delay attempt d M f true u ∧
    calculate_retry_delay attempt d M f true u ≤ min (d * f ^ attempt) M := by
  have hbase : 0 < min (d * f ^ attempt) M := retry_base_pos attempt d M f hd hM hf
  have htrue : calculate_retry_delay attempt d M f true u
      = min (d * f ^ attempt) M * (1/2 + u * (1/2)) := rfl
  refine ⟨rfl, ⟨u * (1/2), by linarith, by linarith, htrue⟩, ?_, ?_⟩
  · rw [htrue]
    nlinarith [mul_nonneg hbase.le hu0]
  · rw [htrue]
    nlinarith [mul_nonneg hbase.le (by linarith : (0:ℚ) ≤ 1 - u)]

/-- Witness for C4 at `attempt = 1`, `initial_delay = 1`, `max_delay = 60`,
`backoff_factor = 2`, jitter draw `u = 0`. -/
theorem C4_delay_formula_witness :
    calculate_retry_delay 1 1 60 2 false 0 = min (1 * 2 ^ 1) 60 ∧
    (∃ U : ℚ, 0 ≤ U ∧ U < 1/2 ∧
      calculate_retry_delay 1 1 60 2 true 0 = min (1 * 2 ^ 1) 60 * (1/2 + U)) ∧
    (1/2) * min (1 * 2 ^ 1) 60 ≤ calculate_retry_delay 1 1 60 2 true 0 ∧
    calculate_retry_delay 1 1 60 2 true 0 ≤ min (1 * 2 ^ 1) 60 :=
  C4_delay_formula 1 1 60 2 0 (by decide) (by decide) (by decide) (by decide) (by decide)

/-- C5: for either setting of randomize and any jitter draw in `[0, 1)`, the
computed delay never exceeds `max_delay`. -/
theorem C5_delay_le_max (attempt : Nat) (d M f u : ℚ) (r : Bool)
    (hd : 0 < d) (hM : d ≤ M) (hf : 1 ≤ f) (hu0 : 0 ≤ u) (hu1 : u < 1) :
    calculate_retry_delay attempt d M f r u ≤ M := by
  have hbase : 0 < min (d * f ^ attempt) M := retry_base_pos attempt d M f hd hM hf
  cases r with
  | false => exact min_le_right _ _
  | true =>
      have h1 : calculate_retry_delay attempt d M f true u
          = min (d * f ^ attempt) M * (1/2 + u * (1/2)) := rfl
      have h2 : min (d * f ^ attempt) M * (1/2 + u * (1/2)) ≤ min (d * f ^ attempt) M := by
        nlinarith [mul_nonneg hbase.le (by linarith : (0:ℚ) ≤ 1 - u)]
      exact h1 ▸ le_trans h2 (min_le_right _ _)

/-- Witness for C5 at `attempt = 7`, `initial_delay = 1`, `max_delay = 60`,
`backoff_factor = 2`, randomize true, jitter draw `u = 0`. -/
theorem C5_delay_le_max_witness : calculate_retry_delay 7 1 60 2 true 0 ≤ 60 :=
  C5_delay_le_max 7 1 60 2 0 true (by decide) (by decide) (by decide) (by decide) (by decide)

/-- C6: with randomize false the delay is monotone non-decreasing in the
attempt index, equals `initial_delay` at attempt 0 when
`initial_delay ≤ max_delay`, and with `backoff_factor = 1` is the constant
`min initial_delay max_delay` at every attempt. -/
theorem C6_monotone_and_const (d M f u : ℚ) (hd : 0 < d) (hf : 1 ≤ f) :
    (∀ a b : Nat, a ≤ b →
      calculate_retry_delay a d M f false u ≤ calculate_retry_delay b d M f false u) ∧
    (d ≤ M → calculate_retry_delay 0 d M f false u = d) ∧
    (∀ a : Nat, calculate_retry_delay a d M 1 false u = min d M) := by
  refine ⟨?_, ?_, ?_⟩
  · intro a b hab
    show min (d * f ^ a) M ≤ min (d * f ^ b) M
    have h1 : d * f ^ a ≤ d * f ^ b :=
      mul_le_mul_of_nonneg_left (pow_le_pow_right₀ hf hab) hd.le
    exact min_le_min h1 (le_refl M)
  · intro hdM
    show min (d * f ^ 0) M = d
    rw [pow_zero, mul_one, min_eq_left hdM]
  · intro a
    show min (d * 1 ^ a) M = min d M
    rw [one_pow, mul_one]

/-- Witness for C6 at `initial_delay = 1`, `max_delay = 60`,
`backoff_factor = 2`, applied at attempts 2 ≤ 5 and at attempt 0. -/
theorem C6_monotone_and_const_witness :
    calculate_retry_delay 2 1 60 2 false 0 ≤ calculate_retry_delay 5 1 60 2 false 0 ∧
    calculate_retry_delay 0 1 60 2 false 0 = 1 ∧
    calculate_retry_delay 4 1 60 1 false 0 = min 1 60 :=
  ⟨(C6_monotone_and_const 1 60 2 0 (by decide) (by decide)).1 2 5 (by decide),
   (C6_monotone_and_const 1 60 2 0 (by decide) (by decide)).2.1 (by decide),
   (C6_monotone_and_const 1 60 1 0 (by decide) (by decide)).2.2 4⟩

/-- C9: the delay expressions written in `BaseSyncClient._request` and
`BaseAsyncClient._request` call the same `_calculate_retry_delay` with the
same argument list, so for identical policy parameters and attempt index
the non-jittered delays coincide, whatever the per-variant jitter draws. -/
theorem C9_sync_async_delay_eq (pol : RetryPolicy) (u v : ℚ) (attempt : Nat)
    (h : pol.randomization = false) :
    sync_request_delay pol u attempt = async_request_delay pol v attempt := by
  simp [sync_request_delay, async_request_delay, calculate_retry_delay, h]

/-- Witness for C9 at the default policy with randomization off, attempt 2,
distinct jitter draws. -/
theorem C9_sync_async_delay_eq_witness :
    sync_request_delay ⟨3, 1, 60, 2, false⟩ (1/4) 2
      = async_request_delay ⟨3, 1, 60, 2, false⟩ (3/4) 2 :=
  C9_sync_async_delay_eq ⟨3, 1, 60, 2, false⟩ (1/4) (3/4) 2 rfl

/-- Counterexample to C1: at the default base URL, `health()` requests
`base_url + "/api/v1/health"` — inside the versioned prefix — and not
`base_url + "/health"`; the repository's own test suite expects the
`"/api/v1/health"` form. -/
theorem C1_counterexample :
    health_url "http://localhost:8080" = "http://localhost:8080/api/v1/health" ∧
    health_url "http://localhost:8080" ≠ "http://localhost:8080" ++ "/health" := by
  constructor
  · decide
  · decide

/-- C1 amended: for every base URL, the health-check request URL is the
base URL (with trailing slashes stripped) followed by `"/api/v1/health"`,
i.e. the health endpoint sits inside the versioned API prefix. -/
theorem C1_amended_health_url (base_url : String) :
    health_url base_url = rstrip_slash base_url ++ "/api/v1/health" := by
  show (rstrip_slash base_url ++ "/api/v1") ++ "/health"
      = rstrip_slash base_url ++ "/api/v1/health"
  rw [String.append_assoc]
  congr 1

/-- C2: per-attempt failure classification of the retry loop. A success is
returned at once; a 401 or 403 status is re-raised at once at every attempt
index; any status < 500 is re-raised at once; a status ≥ 500, a timeout, or
a connection error is retried with the computed delay while attempts
remain, and re-raised on the final attempt. -/
theorem C2_failure_classification (pol : RetryPolicy) (u : ℚ) (a : Nat) :
    (∀ resp, attempt_step pol u a (.success resp) = .ret resp) ∧
    (∀ code, code = 401 ∨ code = 403 →
      attempt_step pol u a (.httpStatus code) = .raiseErr (.statusErr code)) ∧
    (∀ code, code < 500 →
      attempt_step pol u a (.httpStatus code) = .raiseErr (.statusErr code)) ∧
    (∀ code, 500 ≤ code → a < pol.max_retries →
      attempt_step pol u a (.httpStatus code)
        = .retryAfter (calculate_retry_delay a pol.initial_delay pol.max_delay
            pol.backoff_factor pol.randomization u)) ∧
    (∀ code, 500 ≤ code → a = pol.max_retries →
      attempt_step pol u a (.httpStatus code) = .raiseErr (.statusErr code)) ∧
    (a < pol.max_retries → attempt_step pol u a .timeout
        = .retryAfter (calculate_retry_delay a pol.initial_delay pol.max_delay
            pol.backoff_factor pol.randomization u)) ∧
    (a = pol.max_retries → attempt_step pol u a .timeout = .raiseErr .timeoutErr) ∧
    (a < pol.max_retries → attempt_step pol u a .connectError
        = .retryAfter (calculate_retry_delay a pol.initial_delay pol.max_delay
            pol.backoff_factor pol.randomization u)) ∧
    (a = pol.max_retries → attempt_step pol u a .connectError = .raiseErr .connectErr) := by
  refine ⟨fun _ => rfl, ?_, ?_, ?_, ?_, ?_, ?_, ?_, ?_⟩
  · rintro code (rfl | rfl) <;> simp [attempt_step]
  · intro code hlt
    by_cases h1 : code = 401
    · simp [attempt_step, h1]
    · by_cases h2 : code = 403
      · simp [attempt_step, h1, h2]
      · simp [attempt_step, h1, h2, hlt]
  · intro code h5 ham
    have h1 : code ≠ 401 := by omega
    have h2 : code ≠ 403 := by omega
    have h3 : ¬ (code < 500) := by omega
    have h4 : a ≠ pol.max_retries := Nat.ne_of_lt ham
    simp [attempt_step, h1, h2, h3, h4]
  · intro code h5 ham
    have h1 : code ≠ 401 := by omega
    have h2 : code ≠ 403 := by omega
    simp [attempt_step, h1, h2, ham]
  · intro ham
    simp [attempt_step, Nat.ne_of_lt ham]
  · intro ham
    simp [attempt_step, ham]
  · intro ham
    simp [attempt_step, Nat.ne_of_lt ham]
  · intro ham
    simp [attempt_step, ham]

/-- Witness for C2 at the default policy: a 404 at attempt 0 is raised at
once, a 503 at attempt 0 retries with the computed delay, a timeout at the
final attempt index 3 is raised. -/
theorem C2_failure_classification_witness :
    attempt_step ⟨3, 1, 60, 2, false⟩ 0 0 (.httpStatus 404)
      = .raiseErr (.statusErr 404) ∧
    attempt_step ⟨3, 1, 60, 2, false⟩ 0 0 (.httpStatus 503)
      = .retryAfter (calculate_retry_delay 0 1 60 2 false 0) ∧
    attempt_step ⟨3, 1, 60, 2, false⟩ 0 3 .timeout = .raiseErr .timeoutErr :=
  ⟨(C2_failure_classification ⟨3, 1, 60, 2, false⟩ 0 0).2.2.1 404 (by decide),
   (C2_failure_classification ⟨3, 1, 60, 2, false⟩ 0 0).2.2.2.1 503 (by decide) (by decide),
   (C2_failure_classification ⟨3, 1, 60, 2, false⟩ 0 3).2.2.2.2.2.2.1 rfl⟩

/-- On the final attempt index, a retryable outcome makes the loop body
re-raise exactly the exception of that outcome. -/
theorem attempt_step_last_retryable (pol : RetryPolicy) (u : ℚ) (o : Outcome)
    (ho : retryable o) :
    attempt_step pol u pol.max_retries o = .raiseErr (err_of o) := by
  rcases ho with rfl | rfl | ⟨c, hc, rfl⟩
  · simp [attempt_step, err_of]
  · simp [attempt_step, err_of]
  · have h1 : c ≠ 401 := by omega
    have h2 : c ≠ 403 := by omega
    simp [attempt_step, err_of, h1, h2]

/-- Before the final attempt index, a retryable outcome makes the loop body
schedule a retry. -/
theorem attempt_step_mid_retryable (pol : RetryPolicy) (u : ℚ) (a : Nat)
    (ha : a < pol.max_retries) (o : Outcome) (ho : retryable o) :
    attempt_step pol u a o
      = .retryAfter (calculate_retry_delay a pol.initial_delay pol.max_delay
          pol.backoff_factor pol.randomization u) := by
  have h4 : a ≠ pol.max_retries := Nat.ne_of_lt ha
  rcases ho with rfl | rfl | ⟨c, hc, rfl⟩
  · simp [attempt_step, h4]
  · simp [attempt_step, h4]
  · have h1 : c ≠ 401 := by omega
    have h2 : c ≠ 403 := by omega
    have h3 : ¬ (c < 500) := by omega
    simp [attempt_step, h1, h2, h3, h4]

/-- When every attempt's outcome is retryable, the remaining loop from any
attempt index consumes all its fuel and ends by re-raising the exception of
the final attempt's outcome. -/
theorem run_from_all_retryable (pol : RetryPolicy) (us : Nat → ℚ)
    (transport : Nat → Outcome) (h : ∀ a, retryable (transport a)) :
    ∀ fuel attempt, 0 < fuel → attempt + fuel = pol.max_retries + 1 →
      run_from pol us transport fuel attempt
        = (.error (err_of (transport pol.max_retries)), fuel) := by
  intro fuel
  induction fuel with
  | zero => intro attempt h0 _; exact absurd h0 (lt_irrefl 0)
  | succ fuel ih =>
      intro attempt _ hsum
      have hle : attempt ≤ pol.max_retries := by omega
      rcases lt_or_eq_of_le hle with hlt | heq
      · have hfuel : 0 < fuel := by omega
        have hdelay :=
          attempt_step_mid_retryable pol (us attempt) attempt hlt (transport attempt)
            (h attempt)
        have hrec := ih (attempt + 1) hfuel (by omega)
        simp [run_from, hdelay, hrec]
      · have hfuel : fuel = 0 := by omega
        subst hfuel
        subst heq
        have hstep := attempt_step_last_retryable pol (us pol.max_retries)
          (transport pol.max_retries) (h pol.max_retries)
        simp [run_from, hstep]

/-- C3: against a transport whose every attempt fails with a retryable
error, `_request` makes exactly `max_retries + 1` transport calls and then
re-raises the exception of the final attempt, unwrapped. -/
theorem C3_retry_count_and_propagation (pol : RetryPolicy) (us : Nat → ℚ)
    (transport : Nat → Outcome) (h : ∀ a, retryable (transport a)) :
    run_request pol us transport
      = (.error (err_of (transport pol.max_retries)), pol.max_retries + 1) :=
  run_from_all_retryable pol us transport h (pol.max_retries + 1) 0
    (Nat.succ_pos _) (by omega)

/-- Witness for C3: with `max_retries = 2` and a transport that always
times out, three calls are made and the timeout is re-raised. -/
theorem C3_retry_count_witness :
    run_request ⟨2, 1, 60, 2, false⟩ (fun _ => 0) (fun _ => Outcome.timeout)
      = (.error .timeoutErr, 3) :=
  C3_retry_count_and_propagation ⟨2, 1, 60, 2, false⟩ (fun _ => 0)
    (fun _ => Outcome.timeout) (fun _ => Or.inl rfl)

/-- C7: priority order of `_resolve_auth_token`. A non-empty explicit token
is returned as-is and wins over both file sources; otherwise a truthy token
path whose file exists yields its stripped contents; a truthy token path
whose file is missing falls through to the well-known ServiceAccount token
file, as does an absent or empty token path; when no source yields a token
the result is `None`. Being a total function, it never raises. -/
theorem C7_token_priority (fs : String → Option String) (et tp : Option String) :
    (∀ t, et = some t → t ≠ "" → resolve_auth_token fs et tp = some t) ∧
    (truthyStr et = false → ∀ p c, tp = some p → p ≠ "" → fs p = some c →
      resolve_auth_token fs et tp = some c.trim) ∧
    (truthyStr et = false → truthyStr tp = true → fs (tp.getD "") = none →
      ∀ c, fs service_account_token_path = some c →
        resolve_auth_token fs et tp = some c.trim) ∧
    (truthyStr et = false → truthyStr tp = false →
      ∀ c, fs service_account_token_path = some c →
        resolve_auth_token fs et tp = some c.trim) ∧
    (truthyStr et = false →
      (truthyStr tp = true → fs (tp.getD "") = none) →
      fs service_account_token_path = none →
      resolve_auth_token fs et tp = none) := by
  refine ⟨?_, ?_, ?_, ?_, ?_⟩
  · intro t ht hne
    subst ht
    have htr : truthyStr (some t) = true := by simp [truthyStr, hne]
    simp [resolve_auth_token, htr]
  · intro he p c htp hpne hfs
    subst htp
    have htr : truthyStr (some p) = true := by simp [truthyStr, hpne]
    simp [resolve_auth_token, he, htr, hfs]
  · intro he htr hmiss c hsvc
    simp [resolve_auth_token, he, htr, hmiss, hsvc]
  · intro he htr c hsvc
    simp [resolve_auth_token, he, htr, hsvc]
  · intro he himp hsvc
    by_cases htr : truthyStr tp = true
    · have hmiss := himp htr
      simp [resolve_auth_token, he, htr, hmiss, hsvc]
    · have htr2 : truthyStr tp = false := by
        cases h : truthyStr tp
        · rfl
        · exact absurd h htr
      simp [resolve_auth_token, he, htr2, hsvc]

/-- Witness for C7: an explicit token beats an existing token file, and
with no explicit token the token file's stripped contents are returned. -/
theorem C7_token_priority_witness :
    resolve_auth_token (fun p => if p = "/tok" then some " abc " else none)
      (some "tkn") (some "/tok") = some "tkn" ∧
    resolve_auth_token (fun p => if p = "/tok" then some " abc " else none)
      none (some "/tok") = some (" abc ").trim :=
  ⟨(C7_token_priority (fun p => if p = "/tok" then some " abc " else none)
      (some "tkn") (some "/tok")).1 "tkn" rfl (by decide),
   (C7_token_priority (fun p => if p = "/tok" then some " abc " else none)
      none (some "/tok")).2.1 rfl "/tok" " abc " rfl (by decide) (by decide)⟩

/-- C8: a client constructed with `insecure = true` forces the stored CA
bundle to `None`, never takes the branch consulting `_resolve_ca_bundle`,
and passes `verify = False` to the transport — for every filesystem, every
explicit CA path, and either setting of the deprecated `verify_ssl`. -/
theorem C8_insecure_skips_ca (ex : String → Bool) (caP : Option String) (vs : Bool) :
    client_tls_init ex caP true vs
      = { ca_bundle := none, verify := .flag false, ca_resolution_consulted := false } := by
  cases vs <;> rfl

/-- C10: a client constructed with the deprecated `verify_ssl = false`
behaves exactly as if `insecure = true` had been passed — same TLS state,
CA bundle forced to `None`, CA resolution skipped, verification disabled —
for either value of the `insecure` argument itself. -/
theorem C10_verify_ssl_false_is_insecure (ex : String → Bool) (caP : Option String)
    (ins : Bool) :
    client_tls_init ex caP ins false = client_tls_init ex caP true true ∧
    (client_tls_init ex caP ins false).ca_bundle = none ∧
    (client_tls_init ex caP ins false).verify = .flag false ∧
    (client_tls_init ex caP ins false).ca_resolution_consulted = false :=
  ⟨rfl, rfl, rfl, rfl⟩
